import Mathlib

/-!
Verification of the session state machine and protocol gateway of the
gemini-mind-reader server.

The definitions below are shallow embeddings of the TypeScript sources:
`game.ts` (the GameManager session mutators), `gemini.ts` (the
GeminiClient response parser), `index.ts` (the HTTP routes, the
WebSocket handlers, the MCP tool callbacks and `computeNext`) and
`mcp.ts` (`handleToolCall`, `handleValidate` and the tools/list
capability listing).

Modelling conventions:
- JavaScript string truthiness is explicit: `jsTruthyStr` treats both a
  missing value and the empty string as falsy, mirroring `!x` and
  `x || y` on optional strings.
- Thrown exceptions are the `ExecResult.thrown` case of an explicit sum,
  mirroring `throw new Error(msg)` and promise rejection.
- `Date.now()` is an explicit `Nat` parameter at every call site.
- The Gemini network call is a nondeterministic `OracleBehavior`
  parameter: the call either raises, or delivers a text which
  `GeminiClient.nextStep` then parses (`parseGeminiText`).
- The in-memory session `Map` is an association list `Store`;
  in-place mutation of a session object becomes an explicit write-back
  (`setSession`), performed exactly on the paths where the source
  mutates the session, and omitted where the source does not.
-/

namespace MindReader

/-- The answer enum from `types.ts`. -/
inductive AnswerType where
  | yes
  | no
  | maybe
  | unknown
deriving DecidableEq, Repr

/-- A (question, answer) pair, from `types.ts`. -/
structure QA where
  question : String
  answer : AnswerType
deriving DecidableEq, Repr

/-- The session record from `types.ts` (interface GameSession). -/
structure GameSession where
  id : String
  qas : List QA
  lastQuestion : Option String := none
  currentGuess : Option String := none
  startedAt : Nat
  endedAt : Option Nat := none
  done : Bool
deriving DecidableEq, Repr

/-- The question budget, `MAX_QUESTIONS` in `game.ts`. -/
def MAX_QUESTIONS : Nat := 20

/-- The game outcome enum used by the end operation. -/
inductive Outcome where
  | ai_won
  | user_won
deriving DecidableEq, Repr

/-- Result of running a piece of code that may throw, mirroring
JavaScript exceptions and promise rejection. -/
inductive ExecResult (α : Type) where
  | thrown (msg : String)
  | value (a : α)
deriving DecidableEq, Repr

/-- JavaScript truthiness of an optional string: `undefined` and the
empty string are falsy. -/
def jsTruthyStr : Option String → Bool
  | none => false
  | some s => !s.isEmpty

/-- JavaScript `x || d` on an optional string with a string default:
yields `d` when `x` is `undefined` or empty. -/
def jsOr (o : Option String) (d : String) : String :=
  match o with
  | none => d
  | some s => if s.isEmpty then d else s

/-! ## GameManager (`game.ts`) -/

/-- `GameManager.createSession`: fresh id, empty history, started now,
not done. -/
def createSession (id : String) (t : Nat) : GameSession :=
  { id := id, qas := [], startedAt := t, done := false }

/-- `GameManager.applyAnswer`: push the (question, answer) pair, clear
`lastQuestion`, and set `done` once the history length reaches
`MAX_QUESTIONS`. -/
def applyAnswer (s : GameSession) (question : String) (answer : AnswerType) : GameSession :=
  let qas := s.qas ++ [{ question := question, answer := answer }]
  { s with
    qas := qas
    lastQuestion := none
    done := if MAX_QUESTIONS ≤ qas.length then true else s.done }

/-- `GameManager.setLastQuestion`. -/
def setLastQuestion (s : GameSession) (question : String) : GameSession :=
  { s with lastQuestion := some question }

/-- `GameManager.setGuess`. -/
def setGuess (s : GameSession) (guess : String) : GameSession :=
  { s with currentGuess := some guess }

/-- `GameManager.endSession`: unconditionally sets `done` and stamps
`endedAt` with the current time. -/
def endSession (s : GameSession) (t : Nat) : GameSession :=
  { s with done := true, endedAt := some t }

/-! ## GeminiClient response parsing (`gemini.ts`)

`nextStep` trims the model text and matches it, case-insensitively,
against `FINAL_GUESS:` and `QUESTION:` prefixes, then falls back to
searching for the markers anywhere in the text, and finally to a
generic question.  The regular-expression steps are reproduced on
character lists below (ASCII whitespace). -/

/-- ASCII whitespace characters matched by the JavaScript `\s` class
and by `String.prototype.trim` (unicode spaces are not modelled; no
marker string contains them). -/
def isJsWs (c : Char) : Bool :=
  c = ' ' || c = '\t' || c = '\n' || c = '\r' || c = '\x0b' || c = '\x0c'

/-- Trim leading and trailing whitespace from a character list. -/
def trimChars (cs : List Char) : List Char :=
  ((cs.dropWhile isJsWs).reverse.dropWhile isJsWs).reverse

/-- Lowercase a character list (ASCII). -/
def lowerChars (cs : List Char) : List Char := cs.map Char.toLower

/-- Case-insensitive: does `pat` start `cs`?  Mirrors the anchored
case-insensitive regex tests in `nextStep`. -/
def ciStarts (pat cs : List Char) : Bool :=
  List.isPrefixOf (lowerChars pat) (lowerChars cs)

/-- Find the first case-insensitive occurrence of `pat` and return the
suffix just after it (mirrors `toLowerCase().includes` plus the start
of an unanchored case-insensitive match). -/
def findCI (pat : List Char) : List Char → Option (List Char)
  | [] => if pat.isEmpty then some [] else none
  | c :: rest =>
    if ciStarts pat (c :: rest) then some (List.drop pat.length (c :: rest))
    else findCI pat rest

/-- The `\s*(.+)` tail of the unanchored regexes: greedily skip
whitespace, backtracking so that the capture starts at a character
that is not a newline; the capture then runs to the end of the line.
Returns `none` when the regex cannot match at this occurrence. -/
def captureAfterWs (rest : List Char) : Option (List Char) :=
  let w := (rest.takeWhile isJsWs).length
  match (List.range (w + 1)).reverse.find? (fun i =>
      match rest.drop i with
      | [] => false
      | c :: _ => c != '\n') with
  | none => none
  | some i => some ((rest.drop i).takeWhile (fun c => c != '\n'))

/-- The resolved value of `GeminiClient.nextStep`: at most one of
`question` and `guess` (exactly one, by construction of the parser). -/
structure StepRes where
  question : Option String := none
  guess : Option String := none
deriving DecidableEq, Repr

/-- The response-text parsing of `GeminiClient.nextStep` in
`gemini.ts`: anchored `FINAL_GUESS:` / `QUESTION:` prefixes first, then
the unanchored heuristics, then the generic fallback question. -/
def parseGeminiText (raw : String) : StepRes :=
  let text := trimChars raw.data
  if ciStarts "FINAL_GUESS:".data text then
    { guess := some (String.mk (trimChars (text.drop 12))) }
  else if ciStarts "QUESTION:".data text then
    { question := some (String.mk (trimChars (text.drop 9))) }
  else
    let fg := match findCI "final_guess:".data text with
      | some rest => captureAfterWs rest
      | none => none
    match fg with
    | some cap => { guess := some (String.mk (trimChars cap)) }
    | none =>
      match findCI "question:".data text with
      | some rest =>
        match captureAfterWs rest with
        | some cap => { question := some (String.mk (trimChars cap)) }
        | none => { question := some "Is it a living thing?" }
      | none => { question := some "Is it a living thing?" }

/-- Nondeterministic behavior of one Gemini network call: the request
either raises (timeout, quota, transport failure) or delivers a text
to be parsed. -/
inductive OracleBehavior where
  | raise (msg : String)
  | respond (text : String)
deriving DecidableEq, Repr

/-- `GeminiClient.nextStep`: a raising call propagates the exception; a
delivered text is parsed. -/
def geminiNextStep (b : OracleBehavior) : ExecResult StepRes :=
  match b with
  | .raise m => .thrown m
  | .respond text => .value (parseGeminiText text)

/-! ## The advance step (`computeNext` in `index.ts` and the WebSocket
`nextStep` handler; identical logic, different fallback question) -/

/-- The payload `{question?, guess?, done}` returned by the advance
step and by the answer handlers. -/
structure StepOut where
  question : Option String := none
  guess : Option String := none
  done : Bool
deriving DecidableEq, Repr

/-- Outcome of one advance step: the returned (or thrown) payload, the
session after the step, and whether a Gemini call was issued. -/
structure AdvanceResult where
  result : ExecResult StepOut
  session : GameSession
  oracleCalled : Bool
deriving DecidableEq, Repr

/-- Common body of `computeNext` and of the WebSocket `nextStep`
handler in `index.ts`: when no (truthy) pending question exists and the
session is not done, consult Gemini and either record a guess or record
the (possibly fallback) question; otherwise return the stored state
without calling Gemini. -/
def advanceCore (fallbackQ : String) (s : GameSession) (b : OracleBehavior) : AdvanceResult :=
  if !jsTruthyStr s.lastQuestion && !s.done then
    match geminiNextStep b with
    | .thrown m => { result := .thrown m, session := s, oracleCalled := true }
    | .value step =>
      if jsTruthyStr step.guess then
        let g := step.guess.getD ""
        { result := .value { guess := some g, done := s.done }
          session := setGuess s g
          oracleCalled := true }
      else
        let q := jsOr step.question fallbackQ
        { result := .value { question := some q, done := s.done }
          session := setLastQuestion s q
          oracleCalled := true }
  else
    { result := .value { question := s.lastQuestion, guess := s.currentGuess, done := s.done }
      session := s
      oracleCalled := false }

/-- `computeNext` in `index.ts` (used by the POST /start route). -/
def computeNext (s : GameSession) (b : OracleBehavior) : AdvanceResult :=
  advanceCore "Is it man-made?" s b

/-- The `nextStep` handler passed to `attachGameWebSocket` in
`index.ts`. -/
def wsNextStep (s : GameSession) (b : OracleBehavior) : AdvanceResult :=
  advanceCore "Is it commonly found indoors?" s b

/-! ## The answer step (POST /answer route and the MCP answer tool in
`index.ts`; identical logic, different fallback question) -/

/-- Classified outcome of the shared answer-handling body. -/
inductive AnswerOutcome where
  | noPending
  | oracleError (msg : String)
  | guessReply (guess : Option String) (done : Bool)
  | questionReply (question : String) (done : Bool)
deriving DecidableEq, Repr

/-- Common body of the POST /answer route and of the MCP
`answer_question` tool callback in `index.ts`: reject when no (truthy)
pending question; otherwise apply the answer; when that concludes the
session, make a final Gemini call, record its guess if any, and end the
session; otherwise make a Gemini call for the next question or guess.
A Gemini exception propagates after `applyAnswer` has already mutated
the session. -/
def answerCore (fallbackQ : String) (s : GameSession) (ans : AnswerType)
    (b : OracleBehavior) (t : Nat) : AnswerOutcome × GameSession :=
  match s.lastQuestion with
  | none => (.noPending, s)
  | some q =>
    if q.isEmpty then (.noPending, s)
    else
      let s1 := applyAnswer s q ans
      if s1.done then
        match geminiNextStep b with
        | .thrown m => (.oracleError m, s1)
        | .value step =>
          let s2 := if jsTruthyStr step.guess then setGuess s1 (step.guess.getD "") else s1
          let s3 := endSession s2 t
          (.guessReply s3.currentGuess true, s3)
      else
        match geminiNextStep b with
        | .thrown m => (.oracleError m, s1)
        | .value step =>
          if jsTruthyStr step.guess then
            let g := step.guess.getD ""
            (.guessReply (some g) false, setGuess s1 g)
          else
            let q2 := jsOr step.question fallbackQ
            (.questionReply q2 false, setLastQuestion s1 q2)

/-- The session produced by the MCP `start` tool callback in
`index.ts`: create a session, ask Gemini, and record the first question
(with its fallback); when the Gemini call raises, the freshly created
session is left without a question. -/
def mcpStartSession (id : String) (t : Nat) (b : OracleBehavior) : GameSession :=
  match geminiNextStep b with
  | .thrown _ => createSession id t
  | .value step =>
    setLastQuestion (createSession id t) (jsOr step.question "Is it bigger than a microwave?")

/-! ## The session store -/

/-- The in-memory session map of `GameManager`, as an association list
from session id to session. -/
abbrev Store := List (String × GameSession)

/-- `GameManager.getSession`. -/
def getSession (store : Store) (sid : String) : Option GameSession :=
  List.lookup sid store

/-- Write back an in-place mutation of the session stored under
`sid`. -/
def setSession (store : Store) (sid : String) (s : GameSession) : Store :=
  store.map (fun p => if p.1 = sid then (sid, s) else p)

/-- `Map.set` on session creation: replace or insert. -/
def putSession (store : Store) (sid : String) (s : GameSession) : Store :=
  if (getSession store sid).isSome then setSession store sid s
  else store ++ [(sid, s)]

/-! ## HTTP routes (`index.ts`) -/

/-- Replies of the POST /start route. -/
inductive StartReply where
  | okStart (sessionId : String) (question : Option String)
  | serverError (msg : String)
deriving DecidableEq, Repr

/-- The POST /start route: create a session (inserted into the store at
once), run `computeNext`, and reply with the session id and the
question; a thrown Gemini error is caught and reported as a 500 reply,
with the fresh session left in the store. -/
def startRoute (store : Store) (newId : String) (t : Nat) (b : OracleBehavior) :
    StartReply × Store :=
  let session := createSession newId t
  let store1 := putSession store newId session
  let r := computeNext session b
  match r.result with
  | .thrown m => (.serverError m, store1)
  | .value out => (.okStart newId out.question, putSession store1 newId r.session)

/-- Replies of the POST /answer route. -/
inductive AnswerReply where
  | guessOut (guess : Option String) (done : Bool)
  | questionOut (question : String) (done : Bool)
  | notFound (msg : String)
  | badRequest (msg : String)
  | serverError (msg : String)
deriving DecidableEq, Repr

/-- The POST /answer route: 404 on unknown session id, 400 when no
(truthy) pending question, otherwise the shared answer body with the
route fallback question; a thrown Gemini error becomes a 500 reply,
after `applyAnswer` has already been written back. -/
def answerRoute (store : Store) (sid : String) (ans : AnswerType)
    (b : OracleBehavior) (t : Nat) : AnswerReply × Store :=
  match getSession store sid with
  | none => (.notFound "Session not found", store)
  | some s =>
    match answerCore "Is it larger than a breadbox?" s ans b t with
    | (.noPending, _) => (.badRequest "No pending question", store)
    | (.oracleError m, s1) => (.serverError m, setSession store sid s1)
    | (.guessReply g d, s1) => (.guessOut g d, setSession store sid s1)
    | (.questionReply q d, s1) => (.questionOut q d, setSession store sid s1)

/-- Replies of the GET /guess route. -/
inductive GuessReply where
  | okGuess (guess : Option String)
  | notFound (msg : String)
deriving DecidableEq, Repr

/-- The GET /guess route: 404 on unknown session id, otherwise the
stored guess (or null); never mutates. -/
def guessRoute (store : Store) (sid : String) : GuessReply × Store :=
  match getSession store sid with
  | none => (.notFound "Session not found", store)
  | some s => (.okGuess s.currentGuess, store)

/-- Replies of the POST /end route. -/
inductive EndReply where
  | ended
  | notFound (msg : String)
deriving DecidableEq, Repr

/-- The POST /end route: 404 on unknown session id, otherwise
`endSession` (the failed-answers file write is outside the session
state and not modelled). -/
def endRoute (store : Store) (sid : String) (t : Nat) : EndReply × Store :=
  match getSession store sid with
  | none => (.notFound "Session not found", store)
  | some s => (.ended, setSession store sid (endSession s t))

/-! ## MCP tool callbacks (`index.ts`) -/

/-- The MCP `start` tool callback: create and insert a session, ask
Gemini, record the first question; a thrown Gemini error propagates to
the tool dispatcher with the fresh session already in the store. -/
def mcpStartTool (store : Store) (newId : String) (t : Nat) (b : OracleBehavior) :
    ExecResult (String × String) × Store :=
  let s' := mcpStartSession newId t b
  match geminiNextStep b with
  | .thrown m => (.thrown m, putSession store newId s')
  | .value step =>
    (.value (newId, jsOr step.question "Is it bigger than a microwave?"),
      putSession store newId s')

/-- The MCP `answer` tool callback: throws on unknown session id and on
a missing pending question, otherwise the shared answer body with the
tool fallback question. -/
def mcpAnswerTool (store : Store) (sid : String) (ans : AnswerType)
    (b : OracleBehavior) (t : Nat) : ExecResult AnswerOutcome × Store :=
  match getSession store sid with
  | none => (.thrown "Session not found", store)
  | some s =>
    match answerCore "Can it fit in a backpack?" s ans b t with
    | (.noPending, _) => (.thrown "No pending question", store)
    | (.oracleError m, s1) => (.thrown m, setSession store sid s1)
    | (o, s1) => (.value o, setSession store sid s1)

/-- The MCP `getGuess` tool callback: throws on unknown session id,
otherwise the stored guess (or null). -/
def mcpGetGuess (store : Store) (sid : String) : ExecResult (Option String) × Store :=
  match getSession store sid with
  | none => (.thrown "Session not found", store)
  | some s => (.value s.currentGuess, store)

/-- The MCP `end` tool callback: throws on unknown session id,
otherwise `endSession`. -/
def mcpEnd (store : Store) (sid : String) (t : Nat) : ExecResult Unit × Store :=
  match getSession store sid with
  | none => (.thrown "Session not found", store)
  | some s => (.value (), setSession store sid (endSession s t))

/-! ## WebSocket message handlers (`ws.ts` with the handlers from
`index.ts`) -/

/-- Messages the WebSocket game handler sends back. -/
inductive WsOut where
  | question (q : String)
  | guess (g : Option String)
  | endDone
  | endAck
  | wsError (e : String)
deriving DecidableEq, Repr

/-- The `answer` case of the WebSocket message handler: it looks the
session up and runs the `nextStep` handler, but never calls
`applyAnswer` — the `ans` argument of the inbound message is read by
no code path.  It re-emits whatever `nextStep` reports; a thrown error
(unknown session id, Gemini failure) is caught and sent as an error
message. -/
def wsAnswerCase (store : Store) (sid : String) (_ans : AnswerType)
    (b : OracleBehavior) : List WsOut × Store :=
  match getSession store sid with
  | none => ([.wsError "Invalid session"], store)
  | some s =>
    let r := wsNextStep s b
    match r.result with
    | .thrown m => ([.wsError m], setSession store sid r.session)
    | .value out =>
      ((if jsTruthyStr out.question then [WsOut.question (out.question.getD "")] else []) ++
        (if jsTruthyStr out.guess then [WsOut.guess out.guess] else []) ++
        (if out.done then [WsOut.endDone] else []),
        setSession store sid r.session)

/-- The `get_guess` case of the WebSocket message handler: replies with
the stored guess, and with `null` when the session id is unknown (the
optional-chaining `s?.currentGuess ?? null`); no error is surfaced. -/
def wsGetGuess (store : Store) (sid : String) : WsOut × Store :=
  match getSession store sid with
  | none => (.guess none, store)
  | some s => (.guess s.currentGuess, store)

/-- The `end` case of the WebSocket message handler: the `finalize`
handler returns silently when the session id is unknown, and the ack is
sent in either case. -/
def wsEndCase (store : Store) (sid : String) (t : Nat) : WsOut × Store :=
  match getSession store sid with
  | none => (.endAck, store)
  | some s => (.endAck, setSession store sid (endSession s t))

/-! ## MCP JSON-RPC dispatcher (`mcp.ts`) -/

/-- `handleValidate` components: the big country-code classification on
the digit-stripped input (`substring` becomes `take` / `drop`). -/
def validateParts (number : String) : String × String :=
  if number.startsWith "1" && number.length == 11 then ("1", number.drop 1)
  else if number.startsWith "91" && number.length == 12 then ("91", number.drop 2)
  else if number.startsWith "234" && number.length == 13 then ("234", number.drop 3)
  else if number.startsWith "44" && decide (12 ≤ number.length) then ("44", number.drop 2)
  else if number.length == 10 then ("91", number)
  else if number.length == 11 && number.startsWith "0" then ("91", number.drop 1)
  else if decide (10 ≤ number.length) then
    (number.take (number.length - 10), number.drop (number.length - 10))
  else ("", number)

/-- `phoneNumber.replace(/\D/g, "")`. -/
def stripNonDigits (s : String) : String :=
  String.mk (s.data.filter Char.isDigit)

/-- The record returned by `handleValidate`. -/
structure ValidateResult where
  validated_number : String
  original_input : String
  country_code : String
  local_number : String
deriving DecidableEq, Repr

/-- `handleValidate` in `mcp.ts`: strip non-digits, classify the
country code, and format the result as literal-brace
`\x7bcountry_code\x7d\x7bnumber\x7d`. -/
def handleValidate (phoneNumber : String) : ValidateResult :=
  let number := stripNonDigits phoneNumber
  let p := validateParts number
  { validated_number := "\x7b" ++ p.1 ++ "\x7d\x7b" ++ p.2 ++ "\x7d"
    original_input := phoneNumber
    country_code := p.1
    local_number := p.2 }

/-- The tool names listed by the tools/list handler in `mcp.ts`, in
listed order. -/
def mcpToolNames : List String :=
  ["validate", "start_game", "answer_question", "get_guess", "end_game"]

/-- The result payload of a successful tool call (the wire protocol
wraps it as an opaque JSON text content block). -/
inductive ToolResult where
  | startRes (sessionId : String) (question : String)
  | answerRes (o : AnswerOutcome)
  | guessRes (guess : Option String)
  | endRes
  | validateRes (v : ValidateResult)
deriving DecidableEq, Repr

/-- A JSON-RPC reply from the tool dispatcher: a success envelope or a
structured error with a numeric code and a message, both echoing the
request id. -/
inductive RpcReply where
  | success (id : Option String) (result : ToolResult)
  | rpcError (id : Option String) (code : Int) (message : String)
deriving DecidableEq, Repr

/-- The caller-supplied correlation id of a reply. -/
def RpcReply.rpcId : RpcReply → Option String
  | .success i _ => i
  | .rpcError i _ _ => i

/-- An inbound tools/call message (`message.id`, `params.name` and the
flattened `params.arguments`). -/
structure ToolCallMsg where
  id : Option String := none
  name : String
  phoneNumber : String := ""
  sessionId : String := ""
  answer : AnswerType := .unknown
  outcome : Outcome := .ai_won
  actualAnswer : Option String := none
deriving DecidableEq, Repr

/-- `handleToolCall` in `mcp.ts`: dispatch on the tool name; any
exception thrown by a tool is caught and reported as a structured
JSON-RPC error with code `-32603` and the thrown message, echoing
`message.id`; an unknown name throws `Unknown tool: name`. -/
def handleToolCall (msg : ToolCallMsg) (store : Store) (b : OracleBehavior)
    (newId : String) (t : Nat) : RpcReply × Store :=
  if msg.name = "validate" then
    (.success msg.id (.validateRes (handleValidate msg.phoneNumber)), store)
  else if msg.name = "start_game" then
    match mcpStartTool store newId t b with
    | (.thrown m, store') => (.rpcError msg.id (-32603) m, store')
    | (.value (sid, q), store') => (.success msg.id (.startRes sid q), store')
  else if msg.name = "answer_question" then
    match mcpAnswerTool store msg.sessionId msg.answer b t with
    | (.thrown m, store') => (.rpcError msg.id (-32603) m, store')
    | (.value o, store') => (.success msg.id (.answerRes o), store')
  else if msg.name = "get_guess" then
    match mcpGetGuess store msg.sessionId with
    | (.thrown m, store') => (.rpcError msg.id (-32603) m, store')
    | (.value g, store') => (.success msg.id (.guessRes g), store')
  else if msg.name = "end_game" then
    match mcpEnd store msg.sessionId t with
    | (.thrown m, store') => (.rpcError msg.id (-32603) m, store')
    | (.value _, store') => (.success msg.id .endRes, store')
  else
    (.rpcError msg.id (-32603) ("Unknown tool: " ++ msg.name), store)

/-! ## Reachable sessions

A session of the running program is created by `createSession` (the
/start route, the WebSocket `start` case, the MCP `start` tool) and is
subsequently mutated only by the bodies of the advance step, the answer
step, the MCP start callback and the end handlers — these are the only
call sites of the `GameManager` mutators in the sources.  `Reach`
closes the initial sessions under those operation bodies, with the
Gemini behavior, the answer, the times and the fallback questions as
nondeterministic parameters. -/

inductive Reach : GameSession → Prop where
  | create (id : String) (t : Nat) : Reach (createSession id t)
  | start (id : String) (t : Nat) (b : OracleBehavior) : Reach (mcpStartSession id t b)
  | advance (fb : String) (b : OracleBehavior) {s : GameSession} :
      Reach s → Reach ((advanceCore fb s b).session)
  | answer (fb : String) (ans : AnswerType) (b : OracleBehavior) (t : Nat) {s : GameSession} :
      Reach s → Reach ((answerCore fb s ans b t).2)
  | finish (t : Nat) {s : GameSession} : Reach s → Reach (endSession s t)

/-- The session invariant maintained by the program: the history never
exceeds the budget; `done` holds exactly when the budget was reached by
`applyAnswer` (only `applyAnswer` appends) or `endSession` ran (only
`endSession` stamps `endedAt`); and a stored pending question implies
room for one more history entry. -/
def SessionInv (s : GameSession) : Prop :=
  s.qas.length ≤ MAX_QUESTIONS ∧
  (s.done = true ↔ (MAX_QUESTIONS ≤ s.qas.length ∨ s.endedAt ≠ none)) ∧
  (s.lastQuestion.isSome = true → s.qas.length < MAX_QUESTIONS)

/-! ## Theorems -/

theorem inv_createSession (id : String) (t : Nat) : SessionInv (createSession id t) := by
  simp [SessionInv, createSession, MAX_QUESTIONS]

theorem inv_endSession (t : Nat) {s : GameSession} (h : SessionInv s) :
    SessionInv (endSession s t) := by
  obtain ⟨h1, _, h3⟩ := h
  refine ⟨by simpa [endSession] using h1, by simp [endSession], ?_⟩
  simpa [endSession] using h3

theorem inv_mcpStartSession (id : String) (t : Nat) (b : OracleBehavior) :
    SessionInv (mcpStartSession id t b) := by
  unfold mcpStartSession
  match geminiNextStep b with
  | .thrown m => exact inv_createSession id t
  | .value step =>
    simp [SessionInv, createSession, setLastQuestion, MAX_QUESTIONS]

theorem inv_advanceCore (fb : String) (b : OracleBehavior) {s : GameSession}
    (h : SessionInv s) : SessionInv ((advanceCore fb s b).session) := by
  obtain ⟨h1, h2, h3⟩ := h
  unfold advanceCore
  split
  · rename_i hguard
    have hdone : s.done = false := by
      rcases Bool.and_eq_true .. |>.mp hguard with ⟨-, hd⟩
      simpa using hd
    match geminiNextStep b with
    | .thrown m => exact ⟨h1, h2, h3⟩
    | .value step =>
      by_cases hg : jsTruthyStr step.guess = true
      · simp only [hg, if_pos]
        exact ⟨by simpa [setGuess] using h1, by simpa [setGuess] using h2,
          by simpa [setGuess] using h3⟩
      · simp only [hg]
        have hlt : s.qas.length < MAX_QUESTIONS := by
          by_contra hge
          have : s.done = true := h2.mpr (Or.inl (by omega))
          simp [this] at hdone
        refine ⟨by simpa [setLastQuestion] using h1, ?_, ?_⟩
        · simpa [setLastQuestion] using h2
        · intro _
          simpa [setLastQuestion] using hlt
  · exact ⟨h1, h2, h3⟩

theorem inv_answerCore (fb : String) (ans : AnswerType) (b : OracleBehavior) (t : Nat)
    {s : GameSession} (h : SessionInv s) : SessionInv ((answerCore fb s ans b t).2) := by
  obtain ⟨h1, h2, h3⟩ := h
  unfold answerCore
  match hq : s.lastQuestion with
  | none => exact ⟨h1, h2, h3⟩
  | some q =>
    by_cases hqe : q.isEmpty = true
    · simp only [hqe, if_pos]
      exact ⟨h1, h2, h3⟩
    · simp only [hqe, if_neg, Bool.false_eq_true, not_false_iff]
      have hlt : s.qas.length < MAX_QUESTIONS := h3 (by simp [hq])
      have hlen : (applyAnswer s q ans).qas.length = s.qas.length + 1 := by
        simp [applyAnswer]
      have h1' : (applyAnswer s q ans).qas.length ≤ MAX_QUESTIONS := by omega
      have hend : (applyAnswer s q ans).endedAt = s.endedAt := by simp [applyAnswer]
      have hlq : (applyAnswer s q ans).lastQuestion = none := by simp [applyAnswer]
      by_cases hd : (applyAnswer s q ans).done = true
      · simp only [hd, if_pos]
        have h2' : (applyAnswer s q ans).done = true ↔
            (MAX_QUESTIONS ≤ (applyAnswer s q ans).qas.length ∨
              (applyAnswer s q ans).endedAt ≠ none) := by
          constructor
          · intro _
            by_cases hm : MAX_QUESTIONS ≤ (applyAnswer s q ans).qas.length
            · exact Or.inl hm
            · have hsd : s.done = true := by
                have := hd
                simp only [applyAnswer] at this
                rw [if_neg (by simpa [applyAnswer] using hm)] at this
                exact this
              rcases h2.mp hsd with hge | hne
              · omega
              · exact Or.inr (by simpa [hend] using hne)
          · intro _; exact hd
        match geminiNextStep b with
        | .thrown m => exact ⟨h1', h2', by simp [hlq]⟩
        | .value step =>
          by_cases hg : jsTruthyStr step.guess = true
          · simp only [hg, if_pos]
            refine ⟨by simpa [endSession, setGuess] using h1', ?_, ?_⟩
            · simp [endSession, setGuess]
            · simp [endSession, setGuess, hlq]
          · simp only [hg]
            refine ⟨by simpa [endSession] using h1', ?_, ?_⟩
            · simp [endSession]
            · simp [endSession, hlq]
      · simp only [hd]
        have hnd : (applyAnswer s q ans).done = false := by
          simpa using hd
        have hsd : s.done = false := by
          have := hnd
          simp only [applyAnswer] at this
          split at this
          · exact absurd this (by simp)
          · exact this
        have hen : s.endedAt = none := by
          by_contra hne
          have : s.done = true := h2.mpr (Or.inr hne)
          simp [this] at hsd
        have hlt' : (applyAnswer s q ans).qas.length < MAX_QUESTIONS := by
          by_contra hge
          have : (applyAnswer s q ans).done = true := by
            simp only [applyAnswer]
            rw [if_pos (by simpa [applyAnswer] using (by omega : MAX_QUESTIONS ≤ (applyAnswer s q ans).qas.length))]
          simp [this] at hnd
        have h2' : (applyAnswer s q ans).done = true ↔
            (MAX_QUESTIONS ≤ (applyAnswer s q ans).qas.length ∨
              (applyAnswer s q ans).endedAt ≠ none) := by
          rw [hnd, hend, hen]
          simp only [Bool.false_eq_true, false_iff]
          push_neg
          exact ⟨by omega, rfl⟩
        match geminiNextStep b with
        | .thrown m => exact ⟨h1', h2', by simp [hlq]⟩
        | .value step =>
          by_cases hg : jsTruthyStr step.guess = true
          · simp only [hg, if_pos]
            refine ⟨by simpa [setGuess] using h1', ?_, ?_⟩
            · simpa [setGuess] using h2'
            · simp [setGuess, hlq]
          · simp only [hg]
            refine ⟨by simpa [setLastQuestion] using h1', ?_, ?_⟩
            · simpa [setLastQuestion] using h2'
            · intro _
              simpa [setLastQuestion] using hlt'

theorem reach_inv {s : GameSession} (h : Reach s) : SessionInv s := by
  induction h with
  | create id t => exact inv_createSession id t
  | start id t b => exact inv_mcpStartSession id t b
  | advance fb b _ ih => exact inv_advanceCore fb b ih
  | answer fb ans b t _ ih => exact inv_answerCore fb ans b t ih
  | finish t _ ih => exact inv_endSession t ih

/-- C1: every session reachable through the program operations (created
by `createSession` and mutated only by the `GameManager` mutators at
their actual call sites — the advance step, the answer step, the MCP
start callback and the end handlers) has at most `MAX_QUESTIONS = 20`
history entries, and `done` is true exactly when the history reached
the budget through `applyAnswer` (the only appender) or `endSession`
ran on the session (`endedAt` is stamped exactly by `endSession`). -/
theorem c1_history_budget_and_done (s : GameSession) (h : Reach s) :
    s.qas.length ≤ MAX_QUESTIONS ∧
    (s.done = true ↔ (MAX_QUESTIONS ≤ s.qas.length ∨ s.endedAt ≠ none)) :=
  ⟨(reach_inv h).1, (reach_inv h).2.1⟩

/-- Witness for C1 at a concrete reachable session: one created
session, one advance producing a question, one answered turn. -/
theorem c1_history_budget_and_done_witness :
    ((answerCore "fb" ((advanceCore "f" (createSession "w1" 0) (.respond "QUESTION: Is it alive?")).session)
        AnswerType.yes (.respond "QUESTION: Is it red?") 3).2).qas.length ≤ MAX_QUESTIONS ∧
    (((answerCore "fb" ((advanceCore "f" (createSession "w1" 0) (.respond "QUESTION: Is it alive?")).session)
        AnswerType.yes (.respond "QUESTION: Is it red?") 3).2).done = true ↔
      (MAX_QUESTIONS ≤ ((answerCore "fb" ((advanceCore "f" (createSession "w1" 0) (.respond "QUESTION: Is it alive?")).session)
        AnswerType.yes (.respond "QUESTION: Is it red?") 3).2).qas.length ∨
        ((answerCore "fb" ((advanceCore "f" (createSession "w1" 0) (.respond "QUESTION: Is it alive?")).session)
        AnswerType.yes (.respond "QUESTION: Is it red?") 3).2).endedAt ≠ none)) :=
  c1_history_budget_and_done _
    (Reach.answer "fb" AnswerType.yes (.respond "QUESTION: Is it red?") 3
      (Reach.advance "f" (.respond "QUESTION: Is it alive?") (Reach.create "w1" 0)))

/-- Fresh session used in the C2 counterexample. -/
def c2session : GameSession := createSession "c2" 0

/-- C2 counterexample: when the first advance yields a guess
(`FINAL_GUESS: cat`), the session keeps no pending question and stays
not-done, so a second advance without an intervening answer issues a
SECOND Gemini call — the claim that no second Oracle call is issued is
false at this input. -/
theorem c2_counterexample :
    (computeNext c2session (.respond "FINAL_GUESS: cat")).oracleCalled = true ∧
    (computeNext (computeNext c2session (.respond "FINAL_GUESS: cat")).session
      (.respond "FINAL_GUESS: cat")).oracleCalled = true := by
  constructor <;> rfl

/-- Exhaustive characterization of `advanceCore`: a raised Gemini
error, a recorded guess, a recorded question, or the no-call branch
returning the stored state. -/
theorem advanceCore_cases (fb : String) (s : GameSession) (b : OracleBehavior) :
    (∃ m, advanceCore fb s b =
      { result := .thrown m, session := s, oracleCalled := true }) ∨
    (∃ g, advanceCore fb s b =
      { result := .value { guess := some g, done := s.done },
        session := setGuess s g, oracleCalled := true }) ∨
    (∃ q, advanceCore fb s b =
      { result := .value { question := some q, done := s.done },
        session := setLastQuestion s q, oracleCalled := true }) ∨
    (advanceCore fb s b =
      { result := .value { question := s.lastQuestion, guess := s.currentGuess, done := s.done },
        session := s, oracleCalled := false }) := by
  unfold advanceCore
  split
  · match geminiNextStep b with
    | .thrown m => exact Or.inl ⟨m, rfl⟩
    | .value step =>
      dsimp only
      by_cases hg : jsTruthyStr step.guess = true
      · rw [if_pos hg]
        exact Or.inr (Or.inl ⟨step.guess.getD "", rfl⟩)
      · rw [if_neg hg]
        exact Or.inr (Or.inr (Or.inl ⟨jsOr step.question fb, rfl⟩))
  · exact Or.inr (Or.inr (Or.inr rfl))

/-- When the pending question is truthy, the advance step is a pure
read: no Gemini call, no mutation, stored payload returned. -/
theorem advanceCore_noop (fb : String) (s : GameSession) (b : OracleBehavior)
    (h : jsTruthyStr s.lastQuestion = true) :
    advanceCore fb s b =
      { result := .value { question := s.lastQuestion, guess := s.currentGuess, done := s.done },
        session := s, oracleCalled := false } := by
  unfold advanceCore
  rw [if_neg (by simp [h])]

/-- C2 amended: when the first advance yields a (truthy) question, a
second advance with no intervening answer is idempotent — it issues no
Oracle call, leaves the session unchanged, and reports the same
question, paired with the stored `currentGuess` and `done` flag. -/
theorem c2_advance_idempotent_after_question (fb fb' : String) (s : GameSession)
    (b b' : OracleBehavior) (out : StepOut)
    (hres : (advanceCore fb s b).result = .value out)
    (hq : jsTruthyStr out.question = true) :
    (advanceCore fb' (advanceCore fb s b).session b').oracleCalled = false ∧
    (advanceCore fb' (advanceCore fb s b).session b').session = (advanceCore fb s b).session ∧
    (advanceCore fb' (advanceCore fb s b).session b').result =
      .value { question := out.question,
               guess := (advanceCore fb s b).session.currentGuess,
               done := (advanceCore fb s b).session.done } := by
  rcases advanceCore_cases fb s b with ⟨m, hE⟩ | ⟨g, hE⟩ | ⟨q, hE⟩ | hE
  · rw [hE] at hres
    exact absurd hres (by simp)
  · rw [hE] at hres
    have hout : out = { guess := some g, done := s.done } := by
      simp only [AdvanceResult.mk.injEq] at hres
      injection hres with h
      exact h.symm
    rw [hout] at hq
    exact absurd hq (by simp [jsTruthyStr])
  · have hses : (advanceCore fb s b).session = setLastQuestion s q := by rw [hE]
    have hout : out = { question := some q, done := s.done } := by
      rw [hE] at hres
      injection hres with h
      exact h.symm
    have hqq : jsTruthyStr (some q) = true := by
      rw [hout] at hq
      exact hq
    have hnoop := advanceCore_noop fb' (setLastQuestion s q) b'
      (by simpa [setLastQuestion] using hqq)
    rw [hses, hnoop]
    refine ⟨rfl, rfl, ?_⟩
    rw [hout]
    simp [setLastQuestion]
  · have hses : (advanceCore fb s b).session = s := by rw [hE]
    have hout : out = { question := s.lastQuestion, guess := s.currentGuess, done := s.done } := by
      rw [hE] at hres
      injection hres with h
      exact h.symm
    have htr : jsTruthyStr s.lastQuestion = true := by
      rw [hout] at hq
      exact hq
    have hnoop := advanceCore_noop fb' s b' htr
    rw [hses, hnoop]
    exact ⟨rfl, rfl, by rw [hout]⟩

/-- Witness for the amended C2 at a concrete input: a first advance
that yields the question `Is it alive?`. -/
theorem c2_advance_idempotent_after_question_witness :
    (advanceCore "f2" (advanceCore "f1" c2session (.respond "QUESTION: Is it alive?")).session
      (.respond "FINAL_GUESS: dog")).oracleCalled = false ∧
    (advanceCore "f2" (advanceCore "f1" c2session (.respond "QUESTION: Is it alive?")).session
      (.respond "FINAL_GUESS: dog")).session =
      (advanceCore "f1" c2session (.respond "QUESTION: Is it alive?")).session ∧
    (advanceCore "f2" (advanceCore "f1" c2session (.respond "QUESTION: Is it alive?")).session
      (.respond "FINAL_GUESS: dog")).result =
      .value { question := ({ question := some "Is it alive?", done := false } : StepOut).question,
               guess := (advanceCore "f1" c2session (.respond "QUESTION: Is it alive?")).session.currentGuess,
               done := (advanceCore "f1" c2session (.respond "QUESTION: Is it alive?")).session.done } :=
  c2_advance_idempotent_after_question "f1" "f2" c2session
    (.respond "QUESTION: Is it alive?") (.respond "FINAL_GUESS: dog")
    { question := some "Is it alive?", done := false } (by rfl) (by rfl)

/-- A session with one outstanding question, as produced by a start
followed by an advance: used for the C3 failing input. -/
def c3session : GameSession :=
  { id := "s1", qas := [], lastQuestion := some "Is it alive?", startedAt := 0, done := false }

/-- Store holding `c3session`. -/
def c3store : Store := [("s1", c3session)]

/-- C3 failing input, evaluated: the streaming-adapter `answer` case
never calls `applyAnswer` (submitAnswer); on a session with pending
question `Is it alive?` and empty history it merely re-emits the same
pending question, the history stays empty, the pending question is not
cleared, and the carried answer is ignored (the output is identical for
every answer value).  The claim requires the pair to be appended and
the turn to advance. -/
theorem c3_ws_answer_never_submits :
    wsAnswerCase c3store "s1" AnswerType.yes (.respond "QUESTION: Is it red?") =
      ([WsOut.question "Is it alive?"], c3store) ∧
    (∀ a a' : AnswerType, ∀ b : OracleBehavior,
      wsAnswerCase c3store "s1" a b = wsAnswerCase c3store "s1" a' b) := by
  exact ⟨by rfl, fun a a' b => rfl⟩

/-- A session concluded by the explicit end event while a question was
still outstanding (start, advance, then POST /end): `done = true`,
`endedAt = some 5`, pending question kept.  C4 failing input. -/
def c4session : GameSession :=
  { id := "s4", qas := [], lastQuestion := some "Is it alive?", startedAt := 0,
    endedAt := some 5, done := true }

/-- Store holding `c4session`. -/
def c4store : Store := [("s4", c4session)]

/-- C4 failing input, evaluated: the POST /answer route checks only for
a pending question, not for `done`; on the concluded session
`c4session` it still appends to the history, overwrites `currentGuess`
and restamps `endedAt` — the session is mutated after `done = true`,
where the claim requires a no-op. -/
theorem c4_answer_mutates_after_conclude :
    getSession (answerRoute c4store "s4" AnswerType.yes (.respond "FINAL_GUESS: a dog") 9).2 "s4" =
      some { id := "s4", qas := [{ question := "Is it alive?", answer := AnswerType.yes }],
             lastQuestion := none, currentGuess := some "a dog", startedAt := 0,
             endedAt := some 9, done := true } ∧
    (answerRoute c4store "s4" AnswerType.yes (.respond "FINAL_GUESS: a dog") 9).1 =
      .guessOut (some "a dog") true := by
  exact ⟨by rfl, by rfl⟩

/-- Fresh session used in the C5 counterexample and witness. -/
def c5session : GameSession := createSession "c5" 0

/-- C5 counterexample: when the Gemini call itself raises (timeout),
no fallback question is synthesized — `computeNext` propagates the
exception, the session keeps no pending question, and the /start route
reports the failure to the caller as a 500 error reply. -/
theorem c5_counterexample :
    (computeNext c5session (.raise "timeout")).result = .thrown "timeout" ∧
    (computeNext c5session (.raise "timeout")).session.lastQuestion = none ∧
    (startRoute [] "c5" 0 (.raise "timeout")).1 = .serverError "timeout" := by
  exact ⟨rfl, rfl, rfl⟩

/-- A string whose `isEmpty` is false is not the empty string. -/
theorem isEmpty_false_ne (s : String) (h : s.isEmpty = false) : s ≠ "" := by
  intro he
  rw [he] at h
  exact absurd h (by decide)

/-- `jsOr` with a non-empty default never yields the empty string. -/
theorem jsOr_ne_empty (o : Option String) (d : String) (hd : d ≠ "") : jsOr o d ≠ "" := by
  cases o with
  | none => simpa [jsOr] using hd
  | some s =>
    by_cases hs : s.isEmpty = true
    · simpa [jsOr, hs] using hd
    · simp only [jsOr, hs, if_false]
      exact isEmpty_false_ne s (by simpa using hs)

/-- C5 amended: a DELIVERED Gemini response — however malformed — is
always degraded to a non-empty question (in the worst case the generic
fallback) or a non-empty guess, so the turn advances; but a RAISED
Gemini call propagates out of the advance step with the session
unchanged (the route turns it into a 500 error reply), and no fallback
question is synthesized. -/
theorem c5_oracle_failure_behavior (s : GameSession) (text m : String)
    (hq : jsTruthyStr s.lastQuestion = false) (hd : s.done = false) :
    (∃ out, (computeNext s (.respond text)).result = .value out ∧
      ((∃ g, out.guess = some g ∧ g ≠ "") ∨
        (∃ q, out.question = some q ∧ q ≠ "" ∧
          (computeNext s (.respond text)).session.lastQuestion = some q))) ∧
    ((computeNext s (.raise m)).result = .thrown m ∧
      (computeNext s (.raise m)).session = s) ∧
    parseGeminiText "I am really not sure at all." =
      { question := some "Is it a living thing?" } := by
  refine ⟨?_, ⟨?_, ?_⟩, by rfl⟩
  · unfold computeNext advanceCore
    rw [if_pos (by simp [hq, hd])]
    dsimp only [geminiNextStep]
    by_cases hg : jsTruthyStr (parseGeminiText text).guess = true
    · rw [if_pos hg]
      refine ⟨_, rfl, Or.inl ⟨(parseGeminiText text).guess.getD "", rfl, ?_⟩⟩
      match hv : (parseGeminiText text).guess with
      | none => rw [hv] at hg; exact absurd hg (by simp [jsTruthyStr])
      | some g =>
        rw [hv] at hg
        simp only [Option.getD_some]
        exact isEmpty_false_ne g (by simpa [jsTruthyStr] using hg)
    · rw [if_neg hg]
      exact ⟨_, rfl, Or.inr ⟨jsOr (parseGeminiText text).question "Is it man-made?",
        rfl, jsOr_ne_empty _ _ (by decide), by simp [setLastQuestion]⟩⟩
  · unfold computeNext advanceCore
    rw [if_pos (by simp [hq, hd])]
    rfl
  · unfold computeNext advanceCore
    rw [if_pos (by simp [hq, hd])]
    rfl

/-- Witness for the amended C5 at a concrete input. -/
theorem c5_oracle_failure_behavior_witness :
    (∃ out, (computeNext c5session (.respond "gibberish")).result = .value out ∧
      ((∃ g, out.guess = some g ∧ g ≠ "") ∨
        (∃ q, out.question = some q ∧ q ≠ "" ∧
          (computeNext c5session (.respond "gibberish")).session.lastQuestion = some q))) ∧
    ((computeNext c5session (.raise "boom")).result = .thrown "boom" ∧
      (computeNext c5session (.raise "boom")).session = c5session) ∧
    parseGeminiText "I am really not sure at all." =
      { question := some "Is it a living thing?" } :=
  c5_oracle_failure_behavior c5session "gibberish" "boom" (by rfl) (by rfl)

/-- When the stored pending question is falsy (absent or empty), the
shared answer body rejects without touching the session. -/
theorem answerCore_noPending (fb : String) (s : GameSession) (ans : AnswerType)
    (b : OracleBehavior) (t : Nat) (hq : jsTruthyStr s.lastQuestion = false) :
    answerCore fb s ans b t = (.noPending, s) := by
  unfold answerCore
  match hlq : s.lastQuestion with
  | none => rfl
  | some q =>
    have hqe : q.isEmpty = true := by
      rw [hlq] at hq
      simpa [jsTruthyStr] using hq
    dsimp only
    rw [if_pos hqe]

/-- C6: submitting an answer to a session whose pending question is
absent yields the NoPendingQuestion bad-request condition — a 400 reply
on POST /answer, a thrown `No pending question` surfaced by the tool
dispatcher on the MCP answer tool — and the store (hence the history)
is left unchanged. -/
theorem c6_no_pending_question (store : Store) (sid : String) (ans : AnswerType)
    (b : OracleBehavior) (t : Nat) (s : GameSession)
    (hs : getSession store sid = some s)
    (hq : jsTruthyStr s.lastQuestion = false) :
    answerRoute store sid ans b t = (.badRequest "No pending question", store) ∧
    mcpAnswerTool store sid ans b t = (.thrown "No pending question", store) := by
  constructor
  · unfold answerRoute
    rw [hs]
    dsimp only
    rw [answerCore_noPending _ _ _ _ _ hq]
  · unfold mcpAnswerTool
    rw [hs]
    dsimp only
    rw [answerCore_noPending _ _ _ _ _ hq]

/-- Session without a pending question used by the C6 witness. -/
def c6session : GameSession :=
  { id := "w6", qas := [{ question := "Q1", answer := AnswerType.no }], startedAt := 0, done := false }

/-- Witness for C6 at a concrete store. -/
theorem c6_no_pending_question_witness :
    answerRoute [("w6", c6session)] "w6" AnswerType.yes (.respond "QUESTION: Q2") 4 =
      (.badRequest "No pending question", [("w6", c6session)]) ∧
    mcpAnswerTool [("w6", c6session)] "w6" AnswerType.yes (.respond "QUESTION: Q2") 4 =
      (.thrown "No pending question", [("w6", c6session)]) :=
  c6_no_pending_question [("w6", c6session)] "w6" AnswerType.yes (.respond "QUESTION: Q2") 4
    c6session (by rfl) (by rfl)

/-- A session already carrying an end timestamp: C7 counterexample
input. -/
def c7session : GameSession :=
  { id := "e", qas := [], startedAt := 0, endedAt := some 5, done := true }

/-- C7 counterexample: on a session whose `endedAt` is already set, a
second `endSession` at a later clock is NOT a no-op — it overwrites
`endedAt`, so `endedAt` is not written exactly once. -/
theorem c7_counterexample :
    endSession c7session 7 ≠ c7session ∧ (endSession c7session 7).endedAt = some 7 := by
  exact ⟨by decide, rfl⟩

/-- C7 amended: `endSession` unconditionally sets `done` and overwrites
`endedAt` with the current clock, leaving every other field unchanged;
repeating it is absorbed except that `endedAt` records the LATEST end
event (identical state only when the clock has not moved). -/
theorem c7_conclude_overwrites_endedAt (s : GameSession) (t t' : Nat) :
    (endSession s t).done = true ∧
    (endSession s t).endedAt = some t ∧
    (endSession s t).qas = s.qas ∧
    (endSession s t).lastQuestion = s.lastQuestion ∧
    (endSession s t).currentGuess = s.currentGuess ∧
    (endSession s t).id = s.id ∧
    (endSession s t).startedAt = s.startedAt ∧
    endSession (endSession s t) t' = endSession s t' := by
  refine ⟨rfl, rfl, rfl, rfl, rfl, rfl, rfl, rfl⟩

/-- C8 counterexample: on the streaming adapter, `get_guess` with an
unknown session id replies with a plain null-guess message
(indistinguishable from a session that has no guess yet) and `end` with
an unknown session id replies with a success acknowledgment — neither
surfaces a not-found condition, contrary to the claim that every
operation does. -/
theorem c8_counterexample :
    wsGetGuess [] "ghost" = (.guess none, []) ∧
    (∀ e, (wsGetGuess [] "ghost").1 ≠ WsOut.wsError e) ∧
    wsEndCase [] "ghost" 3 = (.endAck, []) ∧
    (∀ e, (wsEndCase [] "ghost" 3).1 ≠ WsOut.wsError e) := by
  refine ⟨rfl, ?_, rfl, ?_⟩
  · intro e h
    rw [show (wsGetGuess [] "ghost").1 = WsOut.guess none from rfl] at h
    exact WsOut.noConfusion h
  · intro e h
    rw [show (wsEndCase [] "ghost" 3).1 = WsOut.endAck from rfl] at h
    exact WsOut.noConfusion h

/-- C8 amended: with an unknown session id, every operation leaves the
store untouched; the synchronous routes reply 404, the MCP tools throw
`Session not found` (surfaced by the dispatcher as a structured error),
and the streaming `answer` case sends an error message — but the
streaming `get_guess` replies with a null guess and the streaming `end`
replies with a success acknowledgment instead of a not-found
condition. -/
theorem c8_unknown_session (store : Store) (sid : String) (ans : AnswerType)
    (b : OracleBehavior) (t : Nat) (h : getSession store sid = none) :
    answerRoute store sid ans b t = (.notFound "Session not found", store) ∧
    guessRoute store sid = (.notFound "Session not found", store) ∧
    endRoute store sid t = (.notFound "Session not found", store) ∧
    mcpAnswerTool store sid ans b t = (.thrown "Session not found", store) ∧
    mcpGetGuess store sid = (.thrown "Session not found", store) ∧
    mcpEnd store sid t = (.thrown "Session not found", store) ∧
    wsAnswerCase store sid ans b = ([.wsError "Invalid session"], store) ∧
    wsGetGuess store sid = (.guess none, store) ∧
    wsEndCase store sid t = (.endAck, store) := by
  refine ⟨?_, ?_, ?_, ?_, ?_, ?_, ?_, ?_, ?_⟩
  · unfold answerRoute; rw [h]
  · unfold guessRoute; rw [h]
  · unfold endRoute; rw [h]
  · unfold mcpAnswerTool; rw [h]
  · unfold mcpGetGuess; rw [h]
  · unfold mcpEnd; rw [h]
  · unfold wsAnswerCase; rw [h]
  · unfold wsGetGuess; rw [h]
  · unfold wsEndCase; rw [h]

/-- Witness for the amended C8 at a concrete store. -/
theorem c8_unknown_session_witness :
    answerRoute [("a", c6session)] "nope" AnswerType.yes (.raise "x") 1 =
      (.notFound "Session not found", [("a", c6session)]) ∧
    guessRoute [("a", c6session)] "nope" = (.notFound "Session not found", [("a", c6session)]) ∧
    endRoute [("a", c6session)] "nope" 1 = (.notFound "Session not found", [("a", c6session)]) ∧
    mcpAnswerTool [("a", c6session)] "nope" AnswerType.yes (.raise "x") 1 =
      (.thrown "Session not found", [("a", c6session)]) ∧
    mcpGetGuess [("a", c6session)] "nope" = (.thrown "Session not found", [("a", c6session)]) ∧
    mcpEnd [("a", c6session)] "nope" 1 = (.thrown "Session not found", [("a", c6session)]) ∧
    wsAnswerCase [("a", c6session)] "nope" AnswerType.yes (.raise "x") =
      ([.wsError "Invalid session"], [("a", c6session)]) ∧
    wsGetGuess [("a", c6session)] "nope" = (.guess none, [("a", c6session)]) ∧
    wsEndCase [("a", c6session)] "nope" 1 = (.endAck, [("a", c6session)]) :=
  c8_unknown_session [("a", c6session)] "nope" AnswerType.yes (.raise "x") 1 (by rfl)

/-- C9: every reply of the MCP tool dispatcher — success or failure —
echoes the caller-supplied correlation id verbatim, and every failure
is reported as a structured error reply with the numeric code `-32603`
and a message, never as a malformed success reply. -/
theorem c9_structured_error_replies (msg : ToolCallMsg) (store : Store) (b : OracleBehavior)
    (newId : String) (t : Nat) :
    ((handleToolCall msg store b newId t).1).rpcId = msg.id ∧
    (∀ i c m, (handleToolCall msg store b newId t).1 = .rpcError i c m →
      i = msg.id ∧ c = -32603) := by
  unfold handleToolCall
  repeat' split
  all_goals refine ⟨rfl, ?_⟩
  all_goals intro i c m h
  all_goals dsimp only at h
  all_goals first
    | exact RpcReply.noConfusion h
    | (injection h with h1 h2 h3; exact ⟨h1.symm, h2.symm⟩)

/-- Concrete tool-call message used by the C9 witness. -/
def c9msg : ToolCallMsg := { id := some "42", name := "answer_question", sessionId := "nope" }

/-- Witness for C9 at a concrete failing call (unknown session id). -/
theorem c9_structured_error_replies_witness :
    ((handleToolCall c9msg [] (.raise "boom") "n1" 0).1).rpcId = c9msg.id ∧
    (∀ i c m, (handleToolCall c9msg [] (.raise "boom") "n1" 0).1 = .rpcError i c m →
      i = c9msg.id ∧ c = -32603) :=
  c9_structured_error_replies c9msg [] (.raise "boom") "n1" 0

/-- Ten-digit inputs are classified with the assumed country code 91
and kept whole. -/
theorem validateParts_ten_digits (n : String) (h : n.length = 10) :
    validateParts n = ("91", n) := by
  unfold validateParts
  simp [h]

/-- C10: the tool adapter exposes `validate` as a fifth tool beyond the
four game operations, both in the capability listing and in the
dispatcher; for every input it deterministically formats the
digit-stripped number as literal-brace
`\x7bcountry_code\x7d\x7bnumber\x7d` (the classification depends only
on the stripped digits), assumes country code 91 for a bare ten-digit
number, and the dispatcher serves it without reading or mutating the
session store. -/
theorem c10_validate_tool (s : String) (msg : ToolCallMsg) (store : Store)
    (b : OracleBehavior) (newId : String) (t : Nat) (hname : msg.name = "validate") :
    mcpToolNames.length = 5 ∧ "validate" ∈ mcpToolNames ∧
    (∀ g : String, g ∈ ["start_game", "answer_question", "get_guess", "end_game"] →
      g ∈ mcpToolNames ∧ g ≠ "validate") ∧
    (handleValidate s).validated_number =
      "\x7b" ++ (handleValidate s).country_code ++ "\x7d\x7b" ++
        (handleValidate s).local_number ++ "\x7d" ∧
    (handleValidate s).original_input = s ∧
    ((handleValidate s).country_code, (handleValidate s).local_number) =
      validateParts (stripNonDigits s) ∧
    ((stripNonDigits s).length = 10 →
      (handleValidate s).country_code = "91" ∧
      (handleValidate s).local_number = stripNonDigits s) ∧
    (handleToolCall msg store b newId t).2 = store ∧
    (handleToolCall msg store b newId t).1 =
      .success msg.id (.validateRes (handleValidate msg.phoneNumber)) := by
  refine ⟨rfl, by decide, by decide, rfl, rfl, rfl, ?_, ?_, ?_⟩
  · intro h10
    have := validateParts_ten_digits (stripNonDigits s) h10
    constructor
    · show (validateParts (stripNonDigits s)).1 = "91"
      rw [this]
    · show (validateParts (stripNonDigits s)).2 = stripNonDigits s
      rw [this]
  · unfold handleToolCall
    rw [if_pos hname]
  · unfold handleToolCall
    rw [if_pos hname]

/-- Concrete tool-call message used by the C10 witness. -/
def c10msg : ToolCallMsg := { id := some "7", name := "validate", phoneNumber := "98-7654-3210" }

/-- Witness for C10 at a concrete ten-digit input. -/
theorem c10_validate_tool_witness :
    mcpToolNames.length = 5 ∧ "validate" ∈ mcpToolNames ∧
    (∀ g : String, g ∈ ["start_game", "answer_question", "get_guess", "end_game"] →
      g ∈ mcpToolNames ∧ g ≠ "validate") ∧
    (handleValidate "98-7654-3210").validated_number =
      "\x7b" ++ (handleValidate "98-7654-3210").country_code ++ "\x7d\x7b" ++
        (handleValidate "98-7654-3210").local_number ++ "\x7d" ∧
    (handleValidate "98-7654-3210").original_input = "98-7654-3210" ∧
    ((handleValidate "98-7654-3210").country_code, (handleValidate "98-7654-3210").local_number) =
      validateParts (stripNonDigits "98-7654-3210") ∧
    ((stripNonDigits "98-7654-3210").length = 10 →
      (handleValidate "98-7654-3210").country_code = "91" ∧
      (handleValidate "98-7654-3210").local_number = stripNonDigits "98-7654-3210") ∧
    (handleToolCall c10msg [] (.raise "x") "n" 0).2 = [] ∧
    (handleToolCall c10msg [] (.raise "x") "n" 0).1 =
      .success c10msg.id (.validateRes (handleValidate c10msg.phoneNumber)) :=
  c10_validate_tool "98-7654-3210" c10msg [] (.raise "x") "n" 0 (by rfl)

end MindReader
